import Mathlib

/-!
# Pod metrics fetcher (`main.go`)

A shallow embedding of the single source file of the repository: the capability
check `supportMetrics`, the fetch `getMetricsFromMetricsAPI` with its caller
`getMetricsItems`, and `main` with its summing and printing loop.

Conventions of the embedding.

* A Go `error` is a `GoError`; `errors.WithStack` adds a `withStack` layer and
  does not change the text returned by `Error()`.
* A Go result pair `(value, err)` of the fetch functions is an `Except`: they
  return either `(nil, err)` or `(value, nil)`.
* Calls into the cluster client are parameters: a `MetricsClient` answers the
  `Get` and `List` requests, a `World` answers the three construction calls of
  `main`. Every request sent to the metrics API is recorded in a trace, and so
  is every line written to standard output.
* `int64` values are integers; every `+=` of `main` is reduced with `wrap64`.
-/

namespace Metrics

/-! ## Errors -/

/-- A Go `error` value: a base error with its message, or an error wrapped by
`errors.WithStack`. -/
inductive GoError where
  | base (msg : String)
  | withStack (cause : GoError)
  deriving DecidableEq

/-- The method `Error()`: `errors.WithStack` keeps the message of its cause. -/
def GoError.Error : GoError → String
  | .base msg => msg
  | .withStack cause => cause.Error

/-! ## Data model -/

/-- The two readings `main` takes of a container's `Usage` resource list:
`Usage.Cpu().MilliValue()` and `Usage.Memory().Value()`, both `int64`. -/
structure ResourceList where
  cpuMilliValue : Int
  memoryValue : Int
  deriving DecidableEq

/-- List metadata carried along by both versions of the pod metrics list. -/
structure ListMeta where
  SelfLink : String := ""
  ResourceVersion : String := ""
  Continue : String := ""
  deriving DecidableEq

namespace V1beta1

/-- `metricsv1beta1api.ContainerMetrics`. -/
structure ContainerMetrics where
  Name : String
  Usage : ResourceList
  deriving DecidableEq

/-- `metricsv1beta1api.PodMetrics`, the wire format of one pod's metrics. -/
structure PodMetrics where
  Name : String
  Namespace : String
  Containers : List ContainerMetrics
  deriving DecidableEq

/-- `metricsv1beta1api.PodMetricsList`. -/
structure PodMetricsList where
  Meta : ListMeta := {}
  Items : List PodMetrics := []
  deriving DecidableEq

end V1beta1

/-- `metricsapi.ContainerMetrics`, the internal representation. -/
structure ContainerMetrics where
  Name : String
  Usage : ResourceList
  deriving DecidableEq

/-- `metricsapi.PodMetrics`, the internal representation. -/
structure PodMetrics where
  Name : String
  Namespace : String
  Containers : List ContainerMetrics
  deriving DecidableEq

/-- `metricsapi.PodMetricsList`, the internal representation. -/
structure PodMetricsList where
  Meta : ListMeta := {}
  Items : List PodMetrics := []
  deriving DecidableEq

/-- A `labels.Selector`, observed only through its method `String()`. -/
structure Selector where
  str : String
  deriving DecidableEq

/-- `labels.Everything()`: the selector that matches everything prints as the
empty string. -/
def Everything : Selector := ⟨""⟩

/-- `metav1.NamespaceAll`. -/
def NamespaceAll : String := ""

/-- `metricsapi.GroupName`. -/
def GroupName : String := "metrics.k8s.io"

/-- The package variable `supportedMetricsAPIVersions`. -/
def supportedMetricsAPIVersions : List String := ["v1beta1"]

/-! ## The metrics API client -/

/-- A request sent to the metrics API. -/
inductive ApiCall where
  | get (ns name : String)
  | list (ns labelSelector : String)
  deriving DecidableEq

/-- The answers of `metricsClient.MetricsV1beta1().PodMetricses(ns)`:
`Get(name, GetOptions{})` and `List(ListOptions{LabelSelector: s})`. -/
structure MetricsClient where
  Get : (ns name : String) → Except GoError V1beta1.PodMetrics
  List : (ns labelSelector : String) → Except GoError V1beta1.PodMetricsList

/-- What a fetch function did and returned: the requests it sent, the lines it
wrote to standard output, and its result pair. -/
structure Fetch where
  calls : List ApiCall
  stdout : List String
  result : Except GoError PodMetricsList

/-- The type of the conversion function of the versioned API package. -/
abbrev Converter := V1beta1.PodMetricsList → Except GoError PodMetricsList

/-- Modelled from the spec: the conversion of one container record of
`Convert_v1beta1_PodMetricsList_To_metrics_PodMetricsList`, a function of the
client library; fields map one to one, with no unit change. -/
def convertContainer (c : V1beta1.ContainerMetrics) : ContainerMetrics :=
  { Name := c.Name, Usage := c.Usage }

/-- Modelled from the spec: the conversion of one pod record of
`Convert_v1beta1_PodMetricsList_To_metrics_PodMetricsList`, a function of the
client library; fields map one to one, with no unit change. -/
def convertPod (p : V1beta1.PodMetrics) : PodMetrics :=
  { Name := p.Name, Namespace := p.Namespace,
    Containers := p.Containers.map convertContainer }

/-- Modelled from the spec: `Convert_v1beta1_PodMetricsList_To_metrics_PodMetricsList`,
a function of the client library that is not part of the source file; a pure
data-shape conversion in which fields map one to one. -/
def Convert_v1beta1_PodMetricsList_To_metrics_PodMetricsList : Converter :=
  fun versioned => .ok { Meta := versioned.Meta, Items := versioned.Items.map convertPod }

/-! ## The fetch -/

/-- The function `getMetricsFromMetricsAPI`; `convert` stands for the library
conversion called on line 140. -/
def getMetricsFromMetricsAPI (convert : Converter) (metricsClient : MetricsClient)
    (namespace_ resourceName : String) (allNamespaces : Bool) (selector : Selector) : Fetch :=
  let ns := if !allNamespaces then namespace_ else NamespaceAll
  if resourceName != "" then
    match metricsClient.Get ns resourceName with
    | .error err =>
      { calls := [.get ns resourceName], stdout := [], result := .error (.withStack err) }
    | .ok m =>
      let versionedMetrics : V1beta1.PodMetricsList := { Items := [m] }
      match convert versionedMetrics with
      | .error err =>
        { calls := [.get ns resourceName], stdout := [err.Error],
          result := .error (.withStack err) }
      | .ok metrics =>
        { calls := [.get ns resourceName], stdout := [], result := .ok metrics }
  else
    match metricsClient.List ns selector.str with
    | .error err =>
      { calls := [.list ns selector.str], stdout := [err.Error],
        result := .error (.withStack err) }
    | .ok versionedMetrics =>
      match convert versionedMetrics with
      | .error err =>
        { calls := [.list ns selector.str], stdout := [err.Error],
          result := .error (.withStack err) }
      | .ok metrics =>
        { calls := [.list ns selector.str], stdout := [], result := .ok metrics }

/-- The method `K9sClient.getMetricsItems`, on the `MetricsClient` field of its
receiver. -/
def getMetricsItems (convert : Converter) (metricsClient : MetricsClient) : Fetch :=
  let selector := Everything
  let r := getMetricsFromMetricsAPI convert metricsClient "default" "" false selector
  match r.result with
  | .error err =>
    { calls := r.calls, stdout := r.stdout ++ [err.Error], result := .error (.withStack err) }
  | .ok metrics =>
    { calls := r.calls, stdout := r.stdout, result := .ok metrics }

/-! ## The capability check -/

/-- `metav1.GroupVersionForDiscovery`. -/
structure GroupVersionForDiscovery where
  GroupVersion : String
  Version : String
  deriving DecidableEq

/-- `metav1.APIGroup`. -/
structure APIGroup where
  Name : String
  Versions : List GroupVersionForDiscovery
  deriving DecidableEq

/-- `metav1.APIGroupList`. -/
structure APIGroupList where
  Groups : List APIGroup
  deriving DecidableEq

/-- The `*kubernetes.Clientset`, observed through the answer of
`Discovery().ServerGroups()`. -/
structure Clientset where
  ServerGroups : Except GoError APIGroupList

/-- The struct `K9sClient`; the field `PodClient` is never read. -/
structure K9sClient where
  Client : Clientset
  MetricsClient : MetricsClient

/-- The innermost loop of `supportMetrics`, over the supported versions. -/
def supportedVersionLoop (version : GroupVersionForDiscovery) : List String → Bool
  | [] => false
  | supportedVersion :: rest =>
    if version.Version == supportedVersion then true else supportedVersionLoop version rest

/-- The middle loop of `supportMetrics`, over the versions of one group. -/
def versionLoop : List GroupVersionForDiscovery → Bool
  | [] => false
  | version :: rest =>
    if supportedVersionLoop version supportedMetricsAPIVersions then true else versionLoop rest

/-- The outer loop of `supportMetrics`, over the discovered groups. -/
def groupLoop : List APIGroup → Bool
  | [] => false
  | discoveredAPIGroup :: rest =>
    if discoveredAPIGroup.Name != GroupName then groupLoop rest
    else if versionLoop discoveredAPIGroup.Versions then true
    else groupLoop rest

/-- The method `K9sClient.supportMetrics`. -/
def supportMetrics (k : K9sClient) : Bool :=
  match k.Client.ServerGroups with
  | .error _ => false
  | .ok apiGroups => groupLoop apiGroups.Groups

/-! ## `main` -/

/-- Reduction of an integer to the `int64` range, two's complement. -/
def wrap64 (x : Int) : Int :=
  (x + 9223372036854775808) % 18446744073709551616 - 9223372036854775808

/-- One round of the inner loop of `main`: `cpu += ...; mem += ... / (1024 * 1024)`,
with the truncating division of Go. -/
def addContainer (acc : Int × Int) (c : ContainerMetrics) : Int × Int :=
  (wrap64 (acc.1 + c.Usage.cpuMilliValue),
   wrap64 (acc.2 + Int.tdiv c.Usage.memoryValue (1024 * 1024)))

/-- The inner loop of `main` for one pod: the pair `(cpu, mem)` after the last
container, both starting from zero. -/
def podTotals (m : PodMetrics) : Int × Int :=
  m.Containers.foldl addContainer (0, 0)

/-- The CPU figure `main` prints for a pod. -/
def podCpu (m : PodMetrics) : Int := (podTotals m).1

/-- The memory figure `main` prints for a pod. -/
def podMem (m : PodMetrics) : Int := (podTotals m).2

/-- The line written by `fmt.Printf("name: %s, cpu: %dm, mem: %dMi\n", ...)`,
without its final newline. -/
def podLine (m : PodMetrics) : String :=
  "name: " ++ m.Name ++ ", cpu: " ++ toString (podCpu m) ++ "m, mem: " ++
    toString (podMem m) ++ "Mi"

/-- The plain sum of the containers' CPU usage in milli-units, as an
unbounded integer. -/
def cpuSum (m : PodMetrics) : Int :=
  (m.Containers.map fun c => c.Usage.cpuMilliValue).sum

/-- The plain sum of the containers' memory usage in bytes, as an unbounded
integer. -/
def memBytesSum (m : PodMetrics) : Int :=
  (m.Containers.map fun c => c.Usage.memoryValue).sum

/-- The memory figure in the words of the specification: the bytes are summed
first and the sum is divided once by 1,048,576, rounding down. -/
def memSumThenDivide (m : PodMetrics) : Int :=
  memBytesSum m / 1048576

/-- The sum over the containers of each container's bytes divided by 1,048,576
with truncation toward zero, as an unbounded integer. -/
def memDivideThenSum (m : PodMetrics) : Int :=
  (m.Containers.map fun c => Int.tdiv c.Usage.memoryValue 1048576).sum

/-- Membership in the `int64` range. -/
def fitsInt64 (x : Int) : Prop :=
  -9223372036854775808 ≤ x ∧ x ≤ 9223372036854775807

instance (x : Int) : Decidable (fitsInt64 x) := by
  unfold fitsInt64; infer_instance

/-- A pod with two containers using half a mebibyte of memory each. -/
def halfMiBPod : PodMetrics :=
  { Name := "podH", Namespace := "default",
    Containers := [⟨"a", ⟨10, 524288⟩⟩, ⟨"b", ⟨20, 524288⟩⟩] }

/-- A pod with two containers whose CPU readings are `2^62` milli-units each. -/
def hugeCpuPod : PodMetrics :=
  { Name := "podX", Namespace := "default",
    Containers := [⟨"a", ⟨4611686018427387904, 0⟩⟩, ⟨"b", ⟨4611686018427387904, 0⟩⟩] }

/-- A pod with two containers using 1.5 and 2.5 mebibytes of memory. -/
def unevenPod : PodMetrics :=
  { Name := "podU", Namespace := "default",
    Containers := [⟨"a", ⟨1, 1572864⟩⟩, ⟨"b", ⟨2, 2621440⟩⟩] }

/-- A metrics client whose every request is refused. -/
def refusingMetricsClient : MetricsClient :=
  { Get := fun _ _ => .error (.base "forbidden"),
    List := fun _ _ => .error (.base "forbidden") }

/-- A cluster whose discovery lists the group `apps` and the metrics
group with the versions `v1alpha1` and `v1beta1`. -/
def metricsCluster : K9sClient :=
  { Client :=
      { ServerGroups := .ok
          { Groups :=
              [ { Name := "apps", Versions := [⟨"apps/v1", "v1"⟩] },
                { Name := "metrics.k8s.io",
                  Versions := [⟨"metrics.k8s.io/v1alpha1", "v1alpha1"⟩,
                               ⟨"metrics.k8s.io/v1beta1", "v1beta1"⟩] } ] } },
    MetricsClient := refusingMetricsClient }

/-- The opaque `*rest.Config`. -/
structure RestConfig where
  Host : String
  deriving DecidableEq

/-- What a constructor of the client library does: it returns a Go pair of a
pointer, which may be nil, and an error, which may be nil, or it panics. -/
inductive CallResult (α : Type) where
  | returned (val : Option α) (err : Option GoError)
  | panicked (msg : String)

/-- The three construction calls of `main` and the library conversion. -/
structure World where
  BuildConfigFromFlags : (masterUrl kubeconfigPath : String) → CallResult RestConfig
  kubernetesNewForConfig : Option RestConfig → CallResult Clientset
  metricsclientsetNewForConfig : Option RestConfig → CallResult MetricsClient
  Convert : Converter

/-- How a run of `main` ends: the requests sent to the metrics API, the lines
written to standard output, and the panic message if it aborted. -/
structure Outcome where
  calls : List ApiCall
  stdout : List String
  panic : Option String
  deriving DecidableEq

/-- The message of the run-time panic raised by a method call through a nil
pointer. -/
def nilDereference : String :=
  "runtime error: invalid memory address or nil pointer dereference"

/-- The function `main` from line 39 on, for the parsed value of the flag
`-kubeconfig`. The errors of `BuildConfigFromFlags` and of
`metricsclientset.NewForConfig` are assigned and never tested. A nil
`clientset` panics at `clientset.CoreV1()`; a nil metrics client panics at its
first use inside `getMetricsFromMetricsAPI`, before any request or output. -/
def main (w : World) (kubeconfig : String) : Outcome :=
  match w.BuildConfigFromFlags "" kubeconfig with
  | .panicked msg => { calls := [], stdout := [], panic := some msg }
  | .returned config _ =>
    match w.kubernetesNewForConfig config with
    | .panicked msg => { calls := [], stdout := [], panic := some msg }
    | .returned _ (some err) => { calls := [], stdout := [], panic := some err.Error }
    | .returned clientset none =>
      match w.metricsclientsetNewForConfig config with
      | .panicked msg => { calls := [], stdout := [], panic := some msg }
      | .returned metricsset _ =>
        match clientset with
        | none => { calls := [], stdout := [], panic := some nilDereference }
        | some _ =>
          match metricsset with
          | none => { calls := [], stdout := [], panic := some nilDereference }
          | some metricsClient =>
            let r := getMetricsItems w.Convert metricsClient
            match r.result with
            | .error err => { calls := r.calls, stdout := r.stdout, panic := some err.Error }
            | .ok items =>
              { calls := r.calls, stdout := r.stdout ++ items.Items.map podLine, panic := none }

/-! ## Concrete clusters -/

/-- The wire record of a pod with one container using 100 milli-units of CPU
and 100 mebibytes of memory. -/
def podA : V1beta1.PodMetrics :=
  { Name := "podA", Namespace := "default", Containers := [⟨"app", ⟨100, 104857600⟩⟩] }

/-- The wire record of a pod with one container using 50 milli-units of CPU
and 50 mebibytes of memory. -/
def podB : V1beta1.PodMetrics :=
  { Name := "podB", Namespace := "default", Containers := [⟨"app", ⟨50, 52428800⟩⟩] }

/-- A metrics API serving the two pods `podA` and `podB`. -/
def twoPodClient : MetricsClient :=
  { Get := fun _ name =>
      if name == "podA" then .ok podA
      else if name == "podB" then .ok podB
      else .error (.base "not found"),
    List := fun _ _ => .ok { Items := [podA, podB] } }

/-- A metrics API that cannot be reached. -/
def networkDownClient : MetricsClient :=
  { Get := fun _ _ => .error (.base "network error"),
    List := fun _ _ => .error (.base "network error") }

/-- A run in which every construction step succeeds and the metrics API
serves `podA` and `podB`. -/
def twoPodWorld : World :=
  { BuildConfigFromFlags := fun _ path => .returned (some ⟨path⟩) none,
    kubernetesNewForConfig := fun _ => .returned (some metricsCluster.Client) none,
    metricsclientsetNewForConfig := fun _ => .returned (some twoPodClient) none,
    Convert := Convert_v1beta1_PodMetricsList_To_metrics_PodMetricsList }

/-- A run in which every construction step succeeds and the metrics API cannot
be reached. -/
def networkDownWorld : World :=
  { BuildConfigFromFlags := fun _ path => .returned (some ⟨path⟩) none,
    kubernetesNewForConfig := fun _ => .returned (some metricsCluster.Client) none,
    metricsclientsetNewForConfig := fun _ => .returned (some networkDownClient) none,
    Convert := Convert_v1beta1_PodMetricsList_To_metrics_PodMetricsList }

/-- A run in which building the metrics client fails: the constructor returns a
nil client and an error, as the library does. -/
def metricsBuildFailsWorld : World :=
  { BuildConfigFromFlags := fun _ path => .returned (some ⟨path⟩) none,
    kubernetesNewForConfig := fun _ => .returned (some metricsCluster.Client) none,
    metricsclientsetNewForConfig := fun _ =>
      .returned none (some (.base "metrics client build failed")),
    Convert := Convert_v1beta1_PodMetricsList_To_metrics_PodMetricsList }

/-- A run in which loading the kubeconfig fails: `BuildConfigFromFlags` returns
a nil configuration and an error, and the constructors, which copy the
configuration they are given, panic on the nil one. -/
def configLoadFailsWorld : World :=
  { BuildConfigFromFlags := fun _ _ => .returned none (some (.base "invalid configuration")),
    kubernetesNewForConfig := fun config =>
      match config with
      | none => .panicked nilDereference
      | some _ => .returned (some metricsCluster.Client) none,
    metricsclientsetNewForConfig := fun config =>
      match config with
      | none => .panicked nilDereference
      | some _ => .returned (some twoPodClient) none,
    Convert := Convert_v1beta1_PodMetricsList_To_metrics_PodMetricsList }

/-- A run in which building the clientset fails. -/
def clientsetBuildFailsWorld : World :=
  { BuildConfigFromFlags := fun _ path => .returned (some ⟨path⟩) none,
    kubernetesNewForConfig := fun _ => .returned none (some (.base "clientset build failed")),
    metricsclientsetNewForConfig := fun _ => .returned (some twoPodClient) none,
    Convert := Convert_v1beta1_PodMetricsList_To_metrics_PodMetricsList }

/-- The world that differs from `w` only in that `BuildConfigFromFlags` and
`metricsclientset.NewForConfig` return a nil error next to the same value. -/
def World.withoutUncheckedErrors (w : World) : World :=
  { w with
    BuildConfigFromFlags := fun masterUrl path =>
      match w.BuildConfigFromFlags masterUrl path with
      | .returned val _ => .returned val none
      | .panicked msg => .panicked msg,
    metricsclientsetNewForConfig := fun config =>
      match w.metricsclientsetNewForConfig config with
      | .returned val _ => .returned val none
      | .panicked msg => .panicked msg }

/-! ## Arithmetic of the summing loop -/

theorem wrap64_add_left (a b : Int) : wrap64 (wrap64 a + b) = wrap64 (a + b) := by
  unfold wrap64; omega

theorem wrap64_of_fits {x : Int} (h : fitsInt64 x) : wrap64 x = x := by
  unfold fitsInt64 at h; unfold wrap64; omega

theorem foldl_addContainer (cs : List ContainerMetrics) (a b : Int) :
    cs.foldl addContainer (wrap64 a, wrap64 b) =
      (wrap64 (a + (cs.map fun c => c.Usage.cpuMilliValue).sum),
       wrap64 (b + (cs.map fun c => Int.tdiv c.Usage.memoryValue 1048576).sum)) := by
  induction cs generalizing a b with
  | nil => simp
  | cons c cs ih =>
    simp only [List.foldl_cons, List.map_cons, List.sum_cons]
    have h : addContainer (wrap64 a, wrap64 b) c =
        (wrap64 (a + c.Usage.cpuMilliValue),
         wrap64 (b + Int.tdiv c.Usage.memoryValue 1048576)) := by
      simp only [addContainer, wrap64_add_left]
      rfl
    rw [h, ih, add_assoc, add_assoc]

theorem podTotals_eq (m : PodMetrics) :
    podTotals m = (wrap64 (cpuSum m), wrap64 (memDivideThenSum m)) := by
  have h := foldl_addContainer m.Containers 0 0
  simp only [zero_add] at h
  exact h

theorem quotient_sum_bounds (bs : List Int) (h : ∀ b ∈ bs, 0 ≤ b) :
    0 ≤ (bs.map fun b => b / 1048576).sum ∧
    1048576 * (bs.map fun b => b / 1048576).sum ≤ bs.sum ∧
    bs.sum ≤ 1048576 * (bs.map fun b => b / 1048576).sum + 1048575 * bs.length := by
  induction bs with
  | nil => simp
  | cons b bs ih =>
    have hb : 0 ≤ b := h b (List.mem_cons_self _ _)
    have ih2 := ih fun x hx => h x (List.mem_cons_of_mem _ hx)
    simp only [List.map_cons, List.sum_cons, List.length_cons, Nat.cast_add, Nat.cast_one]
    omega

theorem quotient_sum_exact (bs : List Int) (h : ∀ b ∈ bs, (1048576 : Int) ∣ b) :
    bs.sum = 1048576 * (bs.map fun b => b / 1048576).sum := by
  induction bs with
  | nil => simp
  | cons b bs ih =>
    have hb : (1048576 : Int) ∣ b := h b (List.mem_cons_self _ _)
    have ih2 := ih fun x hx => h x (List.mem_cons_of_mem _ hx)
    simp only [List.map_cons, List.sum_cons]
    omega

theorem memDivideThenSum_of_nonneg (m : PodMetrics)
    (h : ∀ c ∈ m.Containers, 0 ≤ c.Usage.memoryValue) :
    memDivideThenSum m =
      ((m.Containers.map fun c => c.Usage.memoryValue).map fun b => b / 1048576).sum := by
  unfold memDivideThenSum
  rw [List.map_map]
  congr 1
  apply List.map_congr_left
  intro c hc
  exact Int.tdiv_eq_ediv (h c hc) (by decide)

/-! ## The figures printed by `main` -/

/-- C1, as stated, fails: for a pod with two containers of 524288 bytes each
`main` prints 0 as the memory figure, while the sum of the bytes divided once by
1,048,576 is 1. -/
theorem memory_sum_then_divide_fails :
    podMem halfMiBPod = 0 ∧ memSumThenDivide halfMiBPod = 1 ∧
      podMem halfMiBPod ≠ memSumThenDivide halfMiBPod := by
  decide

/-- C1, amended: the memory figure printed for a pod is the sum over its
containers of the container's bytes divided by 1,048,576 with truncation toward
zero, each container divided separately, the sum being taken in `int64`; it is
exactly that sum whenever the sum fits in `int64`. -/
theorem memory_is_sum_of_truncated_quotients (m : PodMetrics) :
    podMem m = wrap64 (memDivideThenSum m) ∧
      (fitsInt64 (memDivideThenSum m) → podMem m = memDivideThenSum m) := by
  have h : podMem m = wrap64 (memDivideThenSum m) := by
    unfold podMem; rw [podTotals_eq]
  exact ⟨h, fun hfit => h.trans (wrap64_of_fits hfit)⟩

/-- C1, amended, at a pod with containers of 1.5 and 2.5 mebibytes: the figure
is 1 + 2 = 3, not floor(4) = 4. -/
theorem memory_is_sum_of_truncated_quotients_witness :
    fitsInt64 (memDivideThenSum unevenPod) ∧ podMem unevenPod = memDivideThenSum unevenPod ∧
      memDivideThenSum unevenPod = 3 :=
  ⟨by decide,
   (memory_is_sum_of_truncated_quotients unevenPod).2 (by decide), by decide⟩

/-- C2, as stated, fails: for a pod with two containers of `2^62` milli-units
each the `int64` accumulator of `main` wraps around and the printed CPU figure
is `-2^63`, while the plain sum is `2^63`. -/
theorem cpu_plain_sum_fails :
    podCpu hugeCpuPod = -9223372036854775808 ∧ cpuSum hugeCpuPod = 9223372036854775808 ∧
      podCpu hugeCpuPod ≠ cpuSum hugeCpuPod := by
  decide

/-- C2, amended: the CPU figure printed for a pod is the sum of its containers'
CPU usage in milli-units taken in `int64`, with no unit conversion or scaling:
it is the plain sum whenever the plain sum fits in `int64`, the plain sum
reduced to the `int64` range otherwise, and 0 for a pod with no containers. -/
theorem cpu_is_int64_sum (m : PodMetrics) :
    podCpu m = wrap64 (cpuSum m) ∧
      (fitsInt64 (cpuSum m) → podCpu m = cpuSum m) ∧
      (m.Containers = [] → podCpu m = 0) := by
  have h : podCpu m = wrap64 (cpuSum m) := by
    unfold podCpu; rw [podTotals_eq]
  refine ⟨h, fun hfit => h.trans (wrap64_of_fits hfit), fun hnil => ?_⟩
  unfold podCpu podTotals
  rw [hnil]
  rfl

/-- C2, amended, at a pod with containers of 10 and 20 milli-units: the figure
is 30. -/
theorem cpu_is_int64_sum_witness :
    fitsInt64 (cpuSum halfMiBPod) ∧ podCpu halfMiBPod = cpuSum halfMiBPod ∧
      cpuSum halfMiBPod = 30 :=
  ⟨by decide, (cpu_is_int64_sum halfMiBPod).2.1 (by decide), by decide⟩

/-- C10: for a pod with at least one container, non-negative byte counts and a
byte sum that fits in `int64`, the memory figure `M` of the loop of `main` is the
sum of the separately floored quotients and satisfies
`M ≤ floor(sum / 1048576) ≤ M + (n - 1)`; the two are equal when `n = 1` and when
every byte count is a multiple of 1048576; and they differ for some pod with two
containers. -/
theorem memory_truncation_bounds :
    (∀ m : PodMetrics, 1 ≤ m.Containers.length →
        (∀ c ∈ m.Containers, 0 ≤ c.Usage.memoryValue) → fitsInt64 (memBytesSum m) →
        podMem m = (m.Containers.map fun c => c.Usage.memoryValue / 1048576).sum ∧
        podMem m ≤ memSumThenDivide m ∧
        memSumThenDivide m ≤ podMem m + ((m.Containers.length : Int) - 1) ∧
        (m.Containers.length = 1 → podMem m = memSumThenDivide m) ∧
        ((∀ c ∈ m.Containers, (1048576 : Int) ∣ c.Usage.memoryValue) →
          podMem m = memSumThenDivide m)) ∧
    (∃ m : PodMetrics, m.Containers.length = 2 ∧
        (∀ c ∈ m.Containers, 0 ≤ c.Usage.memoryValue) ∧ fitsInt64 (memBytesSum m) ∧
        podMem m ≠ memSumThenDivide m) := by
  refine ⟨fun m hn hpos hfit => ?_, ⟨halfMiBPod, by decide, by decide, by decide, by decide⟩⟩
  have hq := memDivideThenSum_of_nonneg m hpos
  have hb := quotient_sum_bounds (m.Containers.map fun c => c.Usage.memoryValue)
    (by
      intro b hbm
      obtain ⟨c, hc, rfl⟩ := List.mem_map.1 hbm
      exact hpos c hc)
  rw [← hq, List.length_map] at hb
  obtain ⟨h0, hlo, hhi⟩ := hb
  have hsum : memBytesSum m = (m.Containers.map fun c => c.Usage.memoryValue).sum := rfl
  rw [← hsum] at hlo hhi
  have hfit2 : fitsInt64 (memDivideThenSum m) := by
    unfold fitsInt64 at hfit ⊢; omega
  have hM : podMem m = memDivideThenSum m :=
    (show podMem m = wrap64 (memDivideThenSum m) by unfold podMem; rw [podTotals_eq]).trans
      (wrap64_of_fits hfit2)
  have hmap : (m.Containers.map fun c => c.Usage.memoryValue / 1048576).sum =
      memDivideThenSum m := by
    rw [hq, List.map_map]; rfl
  have hlen : (1 : Int) ≤ (m.Containers.length : Int) := by exact_mod_cast hn
  refine ⟨hM.trans hmap.symm, ?_, ?_, ?_, ?_⟩
  · unfold memSumThenDivide; omega
  · unfold memSumThenDivide; omega
  · intro h1
    have : (m.Containers.length : Int) = 1 := by exact_mod_cast h1
    unfold memSumThenDivide; omega
  · intro hdvd
    have hex := quotient_sum_exact (m.Containers.map fun c => c.Usage.memoryValue)
      (by
        intro b hbm
        obtain ⟨c, hc, rfl⟩ := List.mem_map.1 hbm
        exact hdvd c hc)
    rw [← hq, ← hsum] at hex
    unfold memSumThenDivide; omega

/-- C10 at a pod with containers of 1.5 and 2.5 mebibytes: `M = 3` and
`floor(sum / 1048576) = 4 = M + (2 - 1)`. -/
theorem memory_truncation_bounds_witness :
    podMem unevenPod = 3 ∧ memSumThenDivide unevenPod = 4 ∧
      podMem unevenPod ≤ memSumThenDivide unevenPod ∧
      memSumThenDivide unevenPod ≤ podMem unevenPod + ((unevenPod.Containers.length : Int) - 1) :=
  have h := memory_truncation_bounds.1 unevenPod (by decide) (by decide) (by decide)
  ⟨by decide, by decide, h.2.1, h.2.2.1⟩

/-! ## The capability check -/

theorem supportedVersionLoop_iff (version : GroupVersionForDiscovery) (l : List String) :
    supportedVersionLoop version l = true ↔ version.Version ∈ l := by
  induction l with
  | nil => simp [supportedVersionLoop]
  | cons s rest ih =>
    by_cases h : version.Version = s <;> simp [supportedVersionLoop, h, ih]

theorem versionLoop_iff (vs : List GroupVersionForDiscovery) :
    versionLoop vs = true ↔ ∃ v ∈ vs, v.Version ∈ supportedMetricsAPIVersions := by
  induction vs with
  | nil => simp [versionLoop]
  | cons v rest ih =>
    by_cases h : supportedVersionLoop v supportedMetricsAPIVersions = true
    · simp [versionLoop, h, (supportedVersionLoop_iff v _).1 h]
    · have h2 : v.Version ∉ supportedMetricsAPIVersions :=
        fun hm => h ((supportedVersionLoop_iff v _).2 hm)
      simp [versionLoop, h, h2, ih]

theorem groupLoop_iff (gs : List APIGroup) :
    groupLoop gs = true ↔
      ∃ g ∈ gs, g.Name = GroupName ∧
        ∃ v ∈ g.Versions, v.Version ∈ supportedMetricsAPIVersions := by
  induction gs with
  | nil => simp [groupLoop]
  | cons g rest ih =>
    by_cases hn : g.Name = GroupName
    · by_cases hv : versionLoop g.Versions = true
      · have hv2 := (versionLoop_iff g.Versions).1 hv
        simp only [groupLoop, hn, bne_self_eq_false, Bool.false_eq_true, if_false, hv, if_true,
          true_iff]
        exact ⟨g, List.mem_cons_self _ _, hn, hv2⟩
      · have hv2 : ¬ ∃ v ∈ g.Versions, v.Version ∈ supportedMetricsAPIVersions :=
          fun hm => hv ((versionLoop_iff g.Versions).2 hm)
        simp only [groupLoop, hn, bne_self_eq_false, Bool.false_eq_true, if_false, hv, ih,
          List.mem_cons, exists_eq_or_imp, true_and]
        constructor
        · intro h; exact Or.inr h
        · rintro (h | h)
          · exact absurd h hv2
          · exact h
    · have hb : (g.Name != GroupName) = true := by simpa using hn
      simp only [groupLoop, hb, if_true, ih, List.mem_cons, exists_eq_or_imp, hn, false_and,
        false_or]

/-- C3: `supportMetrics` returns true exactly when the discovery call succeeded
and its group list contains a group with the metrics API group name advertising
a version found in `supportedMetricsAPIVersions`, which holds only `"v1beta1"`;
it returns false, and no error, when discovery fails, when no group has the
metrics group name, and when the metrics groups advertise only unsupported
versions. -/
theorem supportMetrics_iff (k : K9sClient) :
    (supportMetrics k = true ↔
      ∃ apiGroups, k.Client.ServerGroups = .ok apiGroups ∧
        ∃ g ∈ apiGroups.Groups, g.Name = GroupName ∧
          ∃ v ∈ g.Versions, v.Version ∈ supportedMetricsAPIVersions) ∧
    (∀ err, k.Client.ServerGroups = .error err → supportMetrics k = false) ∧
    (∀ apiGroups, k.Client.ServerGroups = .ok apiGroups →
      (∀ g ∈ apiGroups.Groups, g.Name ≠ GroupName) → supportMetrics k = false) ∧
    (∀ apiGroups, k.Client.ServerGroups = .ok apiGroups →
      (∀ g ∈ apiGroups.Groups, g.Name = GroupName →
        ∀ v ∈ g.Versions, v.Version ∉ supportedMetricsAPIVersions) →
      supportMetrics k = false) ∧
    supportedMetricsAPIVersions = ["v1beta1"] ∧ GroupName = "metrics.k8s.io" := by
  have key : ∀ apiGroups, k.Client.ServerGroups = .ok apiGroups →
      (supportMetrics k = true ↔ ∃ g ∈ apiGroups.Groups, g.Name = GroupName ∧
          ∃ v ∈ g.Versions, v.Version ∈ supportedMetricsAPIVersions) := by
    intro apiGroups h
    unfold supportMetrics
    rw [h]
    exact groupLoop_iff apiGroups.Groups
  refine ⟨?_, ?_, ?_, ?_, rfl, rfl⟩
  · constructor
    · intro h
      cases hs : k.Client.ServerGroups with
      | error err => simp [supportMetrics, hs] at h
      | ok apiGroups => exact ⟨apiGroups, rfl, (key apiGroups hs).1 h⟩
    · rintro ⟨apiGroups, hs, h⟩
      exact (key apiGroups hs).2 h
  · intro err hs
    simp [supportMetrics, hs]
  · intro apiGroups hs hno
    cases hb : supportMetrics k with
    | false => rfl
    | true =>
      obtain ⟨g, hg, hn, _⟩ := (key apiGroups hs).1 hb
      exact absurd hn (hno g hg)
  · intro apiGroups hs hno
    cases hb : supportMetrics k with
    | false => rfl
    | true =>
      obtain ⟨g, hg, hn, v, hv, hm⟩ := (key apiGroups hs).1 hb
      exact absurd hm (hno g hg hn v hv)

/-- C3 at a cluster advertising `apps/v1` and the metrics group with `v1alpha1`
and `v1beta1`: the check returns true. -/
theorem supportMetrics_iff_witness : supportMetrics metricsCluster = true :=
  (supportMetrics_iff metricsCluster).1.2
    ⟨_, rfl, ⟨"metrics.k8s.io", [⟨"metrics.k8s.io/v1alpha1", "v1alpha1"⟩,
        ⟨"metrics.k8s.io/v1beta1", "v1beta1"⟩]⟩, by decide, by decide,
      ⟨"metrics.k8s.io/v1beta1", "v1beta1"⟩, by decide, by decide⟩

/-! ## The fetch, case by case -/

theorem fetch_get_error (convert : Converter) (mc : MetricsClient) (ns name : String)
    (all : Bool) (sel : Selector) (e : GoError) (hname : name ≠ "")
    (h : mc.Get (if !all then ns else NamespaceAll) name = .error e) :
    getMetricsFromMetricsAPI convert mc ns name all sel =
      { calls := [.get (if !all then ns else NamespaceAll) name], stdout := [],
        result := .error (.withStack e) } := by
  unfold getMetricsFromMetricsAPI
  cases all <;> simp at h <;> simp [hname, h]

theorem fetch_get_convert_error (convert : Converter) (mc : MetricsClient) (ns name : String)
    (all : Bool) (sel : Selector) (m : V1beta1.PodMetrics) (e : GoError) (hname : name ≠ "")
    (h : mc.Get (if !all then ns else NamespaceAll) name = .ok m)
    (hc : convert { Items := [m] } = .error e) :
    getMetricsFromMetricsAPI convert mc ns name all sel =
      { calls := [.get (if !all then ns else NamespaceAll) name], stdout := [e.Error],
        result := .error (.withStack e) } := by
  unfold getMetricsFromMetricsAPI
  cases all <;> simp at h <;> simp [hname, h, hc]

theorem fetch_get_ok (convert : Converter) (mc : MetricsClient) (ns name : String)
    (all : Bool) (sel : Selector) (m : V1beta1.PodMetrics) (ms : PodMetricsList)
    (hname : name ≠ "") (h : mc.Get (if !all then ns else NamespaceAll) name = .ok m)
    (hc : convert { Items := [m] } = .ok ms) :
    getMetricsFromMetricsAPI convert mc ns name all sel =
      { calls := [.get (if !all then ns else NamespaceAll) name], stdout := [],
        result := .ok ms } := by
  unfold getMetricsFromMetricsAPI
  cases all <;> simp at h <;> simp [hname, h, hc]

theorem fetch_list_error (convert : Converter) (mc : MetricsClient) (ns : String)
    (all : Bool) (sel : Selector) (e : GoError)
    (h : mc.List (if !all then ns else NamespaceAll) sel.str = .error e) :
    getMetricsFromMetricsAPI convert mc ns "" all sel =
      { calls := [.list (if !all then ns else NamespaceAll) sel.str], stdout := [e.Error],
        result := .error (.withStack e) } := by
  unfold getMetricsFromMetricsAPI
  cases all <;> simp at h <;> simp [h]

theorem fetch_list_convert_error (convert : Converter) (mc : MetricsClient) (ns : String)
    (all : Bool) (sel : Selector) (v : V1beta1.PodMetricsList) (e : GoError)
    (h : mc.List (if !all then ns else NamespaceAll) sel.str = .ok v)
    (hc : convert v = .error e) :
    getMetricsFromMetricsAPI convert mc ns "" all sel =
      { calls := [.list (if !all then ns else NamespaceAll) sel.str], stdout := [e.Error],
        result := .error (.withStack e) } := by
  unfold getMetricsFromMetricsAPI
  cases all <;> simp at h <;> simp [h, hc]

theorem fetch_list_ok (convert : Converter) (mc : MetricsClient) (ns : String)
    (all : Bool) (sel : Selector) (v : V1beta1.PodMetricsList) (ms : PodMetricsList)
    (h : mc.List (if !all then ns else NamespaceAll) sel.str = .ok v)
    (hc : convert v = .ok ms) :
    getMetricsFromMetricsAPI convert mc ns "" all sel =
      { calls := [.list (if !all then ns else NamespaceAll) sel.str], stdout := [],
        result := .ok ms } := by
  unfold getMetricsFromMetricsAPI
  cases all <;> simp at h <;> simp [h, hc]

theorem fetch_calls (convert : Converter) (mc : MetricsClient) (ns name : String)
    (all : Bool) (sel : Selector) :
    (getMetricsFromMetricsAPI convert mc ns name all sel).calls =
      if name ≠ "" then [.get (if !all then ns else NamespaceAll) name]
      else [.list (if !all then ns else NamespaceAll) sel.str] := by
  unfold getMetricsFromMetricsAPI
  by_cases hname : name = ""
  · subst hname
    simp only [bne_self_eq_false, Bool.false_eq_true, if_false, ne_eq, not_true_eq_false]
    split
    · rfl
    · split <;> rfl
  · have hb : (name != "") = true := by simpa using hname
    simp only [hb, if_true, ne_eq, hname, not_false_eq_true]
    split
    · rfl
    · split <;> rfl

/-! ## Properties of the fetch -/

/-- C4: for a non-empty `resourceName`, whatever the namespace, the
`allNamespaces` flag and the selector, a successful `Get` makes
`getMetricsFromMetricsAPI` return a list of exactly one record, the conversion
of the fetched pod; the only request sent is that `Get`, no `List`; and the
selector is ignored: any two selectors give the same requests, output and
result. -/
theorem get_returns_single_record (convert : Converter) (mc : MetricsClient)
    (ns name : String) (all : Bool) (sel : Selector) (m : V1beta1.PodMetrics)
    (hname : name ≠ "") (hget : mc.Get (if !all then ns else NamespaceAll) name = .ok m) :
    (getMetricsFromMetricsAPI Convert_v1beta1_PodMetricsList_To_metrics_PodMetricsList
        mc ns name all sel).result = .ok { Items := [convertPod m] } ∧
    (∀ ms, convert { Items := [m] } = .ok ms →
      (getMetricsFromMetricsAPI convert mc ns name all sel).result = .ok ms) ∧
    (getMetricsFromMetricsAPI convert mc ns name all sel).calls =
      [.get (if !all then ns else NamespaceAll) name] ∧
    (∀ scope s, ApiCall.list scope s ∉
      (getMetricsFromMetricsAPI convert mc ns name all sel).calls) ∧
    (∀ sel2, getMetricsFromMetricsAPI convert mc ns name all sel2 =
      getMetricsFromMetricsAPI convert mc ns name all sel) := by
  have hcalls := fetch_calls convert mc ns name all sel
  rw [if_pos hname] at hcalls
  refine ⟨?_, ?_, hcalls, ?_, ?_⟩
  · rw [fetch_get_ok _ mc ns name all sel m _ hname hget rfl]
    rfl
  · intro ms hc
    rw [fetch_get_ok _ mc ns name all sel m _ hname hget hc]
  · intro scope s
    rw [hcalls]
    simp
  · intro sel2
    cases hc : convert { Items := [m] } with
    | error e =>
      rw [fetch_get_convert_error convert mc ns name all sel2 m e hname hget hc,
        fetch_get_convert_error convert mc ns name all sel m e hname hget hc]
    | ok ms =>
      rw [fetch_get_ok convert mc ns name all sel2 m ms hname hget hc,
        fetch_get_ok convert mc ns name all sel m ms hname hget hc]

/-- C4 at the cluster serving `podA` and `podB`: asking for `podA` in all
namespaces under the selector `app=web` returns the single record of `podA`. -/
theorem get_returns_single_record_witness :
    (getMetricsFromMetricsAPI Convert_v1beta1_PodMetricsList_To_metrics_PodMetricsList
        twoPodClient "kube-system" "podA" true ⟨"app=web"⟩).result =
      .ok { Items := [convertPod podA] } :=
  (get_returns_single_record Convert_v1beta1_PodMetricsList_To_metrics_PodMetricsList
    twoPodClient "kube-system" "podA" true ⟨"app=web"⟩ podA (by decide) rfl).1

/-- C5: the namespace scope of the request sent by `getMetricsFromMetricsAPI`
is `metav1.NamespaceAll`, the empty string, when `allNamespaces` is true,
whatever the namespace argument, and is the namespace argument when
`allNamespaces` is false; with `allNamespaces` true any two namespace arguments
give the same requests, output and result, in particular for an empty
`resourceName`. -/
theorem namespace_scope (convert : Converter) (mc : MetricsClient)
    (ns name : String) (sel : Selector) :
    (getMetricsFromMetricsAPI convert mc ns name true sel).calls =
      (if name ≠ "" then [.get NamespaceAll name] else [.list NamespaceAll sel.str]) ∧
    (getMetricsFromMetricsAPI convert mc ns name false sel).calls =
      (if name ≠ "" then [.get ns name] else [.list ns sel.str]) ∧
    NamespaceAll = "" ∧
    (∀ ns2, getMetricsFromMetricsAPI convert mc ns name true sel =
      getMetricsFromMetricsAPI convert mc ns2 name true sel) ∧
    (∀ ns2, getMetricsFromMetricsAPI convert mc ns "" true sel =
      getMetricsFromMetricsAPI convert mc ns2 "" true sel) := by
  refine ⟨?_, ?_, rfl, fun ns2 => rfl, fun ns2 => rfl⟩
  · rw [fetch_calls]; rfl
  · rw [fetch_calls]; rfl

/-- C7: in list mode a successful `List` followed by a successful conversion
returns the conversion of exactly the server's list, and with the one-to-one
conversion the returned list has the length of the server's list and its i-th
record is the conversion of the server's i-th record, with the same pod name,
namespace, container names and CPU and memory readings. -/
theorem list_preserves_server_records (convert : Converter) (mc : MetricsClient)
    (ns : String) (all : Bool) (sel : Selector) (v : V1beta1.PodMetricsList)
    (hlist : mc.List (if !all then ns else NamespaceAll) sel.str = .ok v) :
    (∀ ms, convert v = .ok ms →
      (getMetricsFromMetricsAPI convert mc ns "" all sel).result = .ok ms) ∧
    (∃ ms, (getMetricsFromMetricsAPI Convert_v1beta1_PodMetricsList_To_metrics_PodMetricsList
        mc ns "" all sel).result = .ok ms ∧
      ms.Items.length = v.Items.length ∧
      ms.Items = v.Items.map convertPod ∧
      (∀ i : Nat, ms.Items[i]? = (v.Items[i]?).map convertPod) ∧
      (∀ p ∈ v.Items, (convertPod p).Name = p.Name ∧ (convertPod p).Namespace = p.Namespace ∧
        (convertPod p).Containers.length = p.Containers.length ∧
        (convertPod p).Containers.map (fun c => c.Name) = p.Containers.map (fun c => c.Name) ∧
        (convertPod p).Containers.map (fun c => c.Usage) =
          p.Containers.map (fun c => c.Usage))) := by
  refine ⟨fun ms hc => ?_, ⟨{ Meta := v.Meta, Items := v.Items.map convertPod }, ?_, ?_, rfl, ?_, ?_⟩⟩
  · rw [fetch_list_ok convert mc ns all sel v ms hlist hc]
  · rw [fetch_list_ok _ mc ns all sel v _ hlist rfl]
  · simp
  · intro i
    simp
  · intro p _
    refine ⟨rfl, rfl, ?_, ?_, ?_⟩
    · simp [convertPod]
    · simp [convertPod, convertContainer, Function.comp_def]
    · simp [convertPod, convertContainer, Function.comp_def]

/-- C7 at the cluster serving `podA` and `podB`: the fetch returns the two
converted records in the server's order. -/
theorem list_preserves_server_records_witness :
    ∃ ms, (getMetricsFromMetricsAPI Convert_v1beta1_PodMetricsList_To_metrics_PodMetricsList
        twoPodClient "default" "" false Everything).result = .ok ms ∧
      ms.Items = [convertPod podA, convertPod podB] :=
  have h := (list_preserves_server_records
    Convert_v1beta1_PodMetricsList_To_metrics_PodMetricsList twoPodClient "default" false
    Everything { Items := [podA, podB] } rfl).2
  h.elim fun ms hms => ⟨ms, hms.1, hms.2.2.1⟩

/-! ## `getMetricsItems` and `main` -/

theorem getMetricsItems_list_error (convert : Converter) (mc : MetricsClient) (e : GoError)
    (h : mc.List "default" "" = .error e) :
    getMetricsItems convert mc =
      { calls := [.list "default" ""], stdout := [e.Error, e.Error],
        result := .error (.withStack (.withStack e)) } := by
  have hf := fetch_list_error convert mc "default" false Everything e h
  simp only [getMetricsItems, hf]
  rfl

theorem getMetricsItems_convert_error (convert : Converter) (mc : MetricsClient)
    (v : V1beta1.PodMetricsList) (e : GoError)
    (h : mc.List "default" "" = .ok v) (hc : convert v = .error e) :
    getMetricsItems convert mc =
      { calls := [.list "default" ""], stdout := [e.Error, e.Error],
        result := .error (.withStack (.withStack e)) } := by
  have hf := fetch_list_convert_error convert mc "default" false Everything v e h hc
  simp only [getMetricsItems, hf]
  rfl

theorem getMetricsItems_ok (convert : Converter) (mc : MetricsClient)
    (v : V1beta1.PodMetricsList) (ms : PodMetricsList)
    (h : mc.List "default" "" = .ok v) (hc : convert v = .ok ms) :
    getMetricsItems convert mc =
      { calls := [.list "default" ""], stdout := [], result := .ok ms } := by
  have hf := fetch_list_ok convert mc "default" false Everything v ms h hc
  simp only [getMetricsItems, hf]
  rfl

theorem getMetricsItems_cases (convert : Converter) (mc : MetricsClient) :
    (∃ e, getMetricsItems convert mc =
      { calls := [.list "default" ""], stdout := [e.Error, e.Error],
        result := .error (.withStack (.withStack e)) }) ∨
    (∃ ms, getMetricsItems convert mc =
      { calls := [.list "default" ""], stdout := [], result := .ok ms }) := by
  cases h : mc.List "default" "" with
  | error e => exact Or.inl ⟨e, getMetricsItems_list_error convert mc e h⟩
  | ok v =>
    cases hc : convert v with
    | error e => exact Or.inl ⟨e, getMetricsItems_convert_error convert mc v e h hc⟩
    | ok ms => exact Or.inr ⟨ms, getMetricsItems_ok convert mc v ms h hc⟩

theorem main_of_constructed (w : World) (kubeconfig : String) (config : Option RestConfig)
    (e0 e2 : Option GoError) (cs : Clientset) (mc : MetricsClient)
    (h1 : w.BuildConfigFromFlags "" kubeconfig = .returned config e0)
    (h2 : w.kubernetesNewForConfig config = .returned (some cs) none)
    (h3 : w.metricsclientsetNewForConfig config = .returned (some mc) e2) :
    main w kubeconfig =
      match (getMetricsItems w.Convert mc).result with
      | .error err =>
        { calls := (getMetricsItems w.Convert mc).calls,
          stdout := (getMetricsItems w.Convert mc).stdout, panic := some err.Error }
      | .ok items =>
        { calls := (getMetricsItems w.Convert mc).calls,
          stdout := (getMetricsItems w.Convert mc).stdout ++ items.Items.map podLine,
          panic := none } := by
  simp only [main, h1, h2, h3]

/-- C6: `getMetricsFromMetricsAPI` sends exactly one request, with no retry;
when the `Get` (non-empty `resourceName`), the `List` (empty `resourceName`) or
the conversion returns an error it returns no list and that error under one
`errors.WithStack`; when those steps succeed it returns the converted list and
no error; and it returns an error only in those cases. `getMetricsItems` sends
the same single request and returns the error under one more
`errors.WithStack`, with the same message. When it fails inside `main`, the
output holds the error message twice, written by the two fetch functions, and
no pod line, and `main` panics with that message. -/
theorem fetch_fails_iff_step_fails :
    (∀ (convert : Converter) (mc : MetricsClient) (ns name : String) (all : Bool)
        (sel : Selector),
      (getMetricsFromMetricsAPI convert mc ns name all sel).calls.length = 1 ∧
      (name ≠ "" → ∀ e, mc.Get (if !all then ns else NamespaceAll) name = .error e →
        (getMetricsFromMetricsAPI convert mc ns name all sel).result = .error (.withStack e)) ∧
      (name = "" → ∀ e, mc.List (if !all then ns else NamespaceAll) sel.str = .error e →
        (getMetricsFromMetricsAPI convert mc ns name all sel).result = .error (.withStack e)) ∧
      (name ≠ "" → ∀ m e, mc.Get (if !all then ns else NamespaceAll) name = .ok m →
        convert { Items := [m] } = .error e →
        (getMetricsFromMetricsAPI convert mc ns name all sel).result = .error (.withStack e)) ∧
      (name = "" → ∀ v e, mc.List (if !all then ns else NamespaceAll) sel.str = .ok v →
        convert v = .error e →
        (getMetricsFromMetricsAPI convert mc ns name all sel).result = .error (.withStack e)) ∧
      (name ≠ "" → ∀ m ms, mc.Get (if !all then ns else NamespaceAll) name = .ok m →
        convert { Items := [m] } = .ok ms →
        (getMetricsFromMetricsAPI convert mc ns name all sel).result = .ok ms) ∧
      (name = "" → ∀ v ms, mc.List (if !all then ns else NamespaceAll) sel.str = .ok v →
        convert v = .ok ms →
        (getMetricsFromMetricsAPI convert mc ns name all sel).result = .ok ms) ∧
      (∀ err, (getMetricsFromMetricsAPI convert mc ns name all sel).result = .error err →
        ∃ e, err = .withStack e ∧ err.Error = e.Error ∧
          ((name ≠ "" ∧ mc.Get (if !all then ns else NamespaceAll) name = .error e) ∨
           (name = "" ∧ mc.List (if !all then ns else NamespaceAll) sel.str = .error e) ∨
           (name ≠ "" ∧ ∃ m, mc.Get (if !all then ns else NamespaceAll) name = .ok m ∧
              convert { Items := [m] } = .error e) ∨
           (name = "" ∧ ∃ v, mc.List (if !all then ns else NamespaceAll) sel.str = .ok v ∧
              convert v = .error e)))) ∧
    (∀ (convert : Converter) (mc : MetricsClient),
      (getMetricsItems convert mc).calls =
        (getMetricsFromMetricsAPI convert mc "default" "" false Everything).calls ∧
      (getMetricsItems convert mc).calls.length = 1 ∧
      (∀ e, (getMetricsFromMetricsAPI convert mc "default" "" false Everything).result
          = .error e →
        (getMetricsItems convert mc).result = .error (.withStack e) ∧
        (GoError.withStack e).Error = e.Error) ∧
      (∀ ms, (getMetricsFromMetricsAPI convert mc "default" "" false Everything).result
          = .ok ms →
        (getMetricsItems convert mc).result = .ok ms)) ∧
    (∀ (w : World) (kubeconfig : String) (config : Option RestConfig)
        (e0 e2 : Option GoError) (cs : Clientset) (mc : MetricsClient) (err : GoError),
      w.BuildConfigFromFlags "" kubeconfig = .returned config e0 →
      w.kubernetesNewForConfig config = .returned (some cs) none →
      w.metricsclientsetNewForConfig config = .returned (some mc) e2 →
      (getMetricsItems w.Convert mc).result = .error err →
      main w kubeconfig =
        { calls := [.list "default" ""], stdout := [err.Error, err.Error],
          panic := some err.Error }) := by
  refine ⟨fun convert mc ns name all sel => ⟨?_, ?_, ?_, ?_, ?_, ?_, ?_, ?_⟩,
    fun convert mc => ⟨?_, ?_, ?_, ?_⟩, ?_⟩
  · rw [fetch_calls]
    split <;> rfl
  · intro hname e h
    rw [fetch_get_error convert mc ns name all sel e hname h]
  · intro hname e h
    subst hname
    rw [fetch_list_error convert mc ns all sel e h]
  · intro hname m e h hc
    rw [fetch_get_convert_error convert mc ns name all sel m e hname h hc]
  · intro hname v e h hc
    subst hname
    rw [fetch_list_convert_error convert mc ns all sel v e h hc]
  · intro hname m ms h hc
    rw [fetch_get_ok convert mc ns name all sel m ms hname h hc]
  · intro hname v ms h hc
    subst hname
    rw [fetch_list_ok convert mc ns all sel v ms h hc]
  · intro err herr
    by_cases hname : name = ""
    · subst hname
      cases h : mc.List (if !all then ns else NamespaceAll) sel.str with
      | error e =>
        rw [fetch_list_error convert mc ns all sel e h] at herr
        injection herr with herr
        exact ⟨e, herr.symm, by rw [← herr]; rfl, Or.inr (Or.inl ⟨rfl, rfl⟩)⟩
      | ok v =>
        cases hc : convert v with
        | error e =>
          rw [fetch_list_convert_error convert mc ns all sel v e h hc] at herr
          injection herr with herr
          exact ⟨e, herr.symm, by rw [← herr]; rfl, Or.inr (Or.inr (Or.inr ⟨rfl, v, rfl, hc⟩))⟩
        | ok ms =>
          rw [fetch_list_ok convert mc ns all sel v ms h hc] at herr
          cases herr
    · cases h : mc.Get (if !all then ns else NamespaceAll) name with
      | error e =>
        rw [fetch_get_error convert mc ns name all sel e hname h] at herr
        injection herr with herr
        exact ⟨e, herr.symm, by rw [← herr]; rfl, Or.inl ⟨hname, rfl⟩⟩
      | ok m =>
        cases hc : convert { Items := [m] } with
        | error e =>
          rw [fetch_get_convert_error convert mc ns name all sel m e hname h hc] at herr
          injection herr with herr
          exact ⟨e, herr.symm, by rw [← herr]; rfl,
            Or.inr (Or.inr (Or.inl ⟨hname, m, rfl, hc⟩))⟩
        | ok ms =>
          rw [fetch_get_ok convert mc ns name all sel m ms hname h hc] at herr
          cases herr
  · rw [fetch_calls]
    rcases getMetricsItems_cases convert mc with ⟨e, h⟩ | ⟨ms, h⟩ <;> rw [h] <;> rfl
  · rcases getMetricsItems_cases convert mc with ⟨e, h⟩ | ⟨ms, h⟩ <;> rw [h] <;> rfl
  · intro e he
    refine ⟨?_, rfl⟩
    simp only [getMetricsItems, he]
  · intro ms hms
    simp only [getMetricsItems, hms]
  · intro w kubeconfig config e0 e2 cs mc err h1 h2 h3 herr
    rw [main_of_constructed w kubeconfig config e0 e2 cs mc h1 h2 h3]
    rcases getMetricsItems_cases w.Convert mc with ⟨e, h⟩ | ⟨ms, h⟩
    · rw [h] at herr ⊢
      injection herr with herr
      subst herr
      rfl
    · rw [h] at herr
      cases herr

/-- C6 at a cluster whose metrics API cannot be reached: `main` sends the one
`List` request, writes the error message twice and no pod line, and panics with
the message. -/
theorem fetch_fails_iff_step_fails_witness :
    main networkDownWorld "/home/user/.kube/config" =
      { calls := [.list "default" ""], stdout := ["network error", "network error"],
        panic := some "network error" } :=
  fetch_fails_iff_step_fails.2.2 networkDownWorld "/home/user/.kube/config"
    (some ⟨"/home/user/.kube/config"⟩) none none metricsCluster.Client networkDownClient
    (.withStack (.withStack (.base "network error"))) rfl rfl rfl rfl

/-- C8, evaluated: when building the metrics client fails, and when loading the
kubeconfig fails, `main` does not stop with the error message of that step but
goes on and ends in a nil-pointer panic; only the failure to build the clientset
stops it with the message of the step. The errors returned by
`BuildConfigFromFlags` and `metricsclientset.NewForConfig` have no effect on any
run: erasing them leaves the outcome unchanged. -/
theorem main_ignores_two_construction_errors :
    main metricsBuildFailsWorld "/home/user/.kube/config" =
      { calls := [], stdout := [], panic := some nilDereference } ∧
    main configLoadFailsWorld "/no/such/file" =
      { calls := [], stdout := [], panic := some nilDereference } ∧
    nilDereference ≠ "metrics client build failed" ∧
    nilDereference ≠ "invalid configuration" ∧
    main clientsetBuildFailsWorld "/home/user/.kube/config" =
      { calls := [], stdout := [], panic := some "clientset build failed" } ∧
    (∀ (w : World) (kubeconfig : String),
      main w.withoutUncheckedErrors kubeconfig = main w kubeconfig) := by
  refine ⟨by decide, by decide, by decide, by decide, by decide, fun w kubeconfig => ?_⟩
  unfold main World.withoutUncheckedErrors
  simp only
  cases w.BuildConfigFromFlags "" kubeconfig with
  | panicked msg => rfl
  | returned config e0 =>
    simp only
    cases w.kubernetesNewForConfig config with
    | panicked msg => rfl
    | returned clientset e1 =>
      cases e1 with
      | some err => rfl
      | none =>
        simp only
        cases w.metricsclientsetNewForConfig config with
        | panicked msg => rfl
        | returned metricsset e2 => rfl

/-- C9: when every construction step succeeds and the fetch returns the
records `R1..Rk`, `main` writes exactly `k` lines, the i-th being
`name: <Ri.Name>, cpu: <cpu>m, mem: <mem>Mi` with the two sums of its loop, in
the order of the records, and ends without a panic; the fetch it issues is the
one for namespace `default`, an empty `resourceName`, `allNamespaces` false and
the match-everything selector, that is the single request `List` in `default`
with an empty label selector. -/
theorem main_prints_one_line_per_record (w : World) (kubeconfig : String)
    (config : Option RestConfig) (e0 e2 : Option GoError) (cs : Clientset)
    (mc : MetricsClient) (items : PodMetricsList)
    (h1 : w.BuildConfigFromFlags "" kubeconfig = .returned config e0)
    (h2 : w.kubernetesNewForConfig config = .returned (some cs) none)
    (h3 : w.metricsclientsetNewForConfig config = .returned (some mc) e2)
    (hfetch : (getMetricsItems w.Convert mc).result = .ok items) :
    (main w kubeconfig).stdout = items.Items.map podLine ∧
    (main w kubeconfig).stdout.length = items.Items.length ∧
    (∀ i : Nat, (main w kubeconfig).stdout[i]? = (items.Items[i]?).map podLine) ∧
    (∀ m : PodMetrics, podLine m =
      "name: " ++ m.Name ++ ", cpu: " ++ toString (podCpu m) ++ "m, mem: " ++
        toString (podMem m) ++ "Mi") ∧
    (main w kubeconfig).panic = none ∧
    (main w kubeconfig).calls = [.list "default" ""] ∧
    (main w kubeconfig).calls =
      (getMetricsFromMetricsAPI w.Convert mc "default" "" false Everything).calls ∧
    (getMetricsFromMetricsAPI w.Convert mc "default" "" false Everything).result = .ok items ∧
    Everything.str = "" := by
  have hmain := main_of_constructed w kubeconfig config e0 e2 cs mc h1 h2 h3
  rcases getMetricsItems_cases w.Convert mc with ⟨e, h⟩ | ⟨ms, h⟩
  · rw [h] at hfetch
    cases hfetch
  · have hms : ms = items := by
      rw [h] at hfetch
      injection hfetch
    subst hms
    rw [h] at hmain
    have hout : (main w kubeconfig).stdout = ms.Items.map podLine := by
      rw [hmain]; rfl
    have hcalls : (main w kubeconfig).calls = [.list "default" ""] := by
      rw [hmain]
    have hfc := fetch_calls w.Convert mc "default" "" false Everything
    have hres : (getMetricsFromMetricsAPI w.Convert mc "default" "" false Everything).result
        = .ok ms := by
      have hr2 : (getMetricsItems w.Convert mc).result = .ok ms := by rw [h]
      cases hr : (getMetricsFromMetricsAPI w.Convert mc "default" "" false Everything).result with
      | error e => simp [getMetricsItems, hr] at hr2
      | ok ms2 => simpa [getMetricsItems, hr] using hr2
    refine ⟨hout, ?_, ?_, fun m => rfl, ?_, hcalls, ?_, hres, rfl⟩
    · rw [hout, List.length_map]
    · intro i
      rw [hout, List.getElem?_map]
    · rw [hmain]
    · rw [hcalls, hfc]
      rfl

/-- C9 at the cluster serving `podA` (100m, 104857600 bytes) and `podB` (50m,
52428800 bytes) with one container each: the two lines of the scenario. -/
theorem main_prints_one_line_per_record_witness :
    (main twoPodWorld "/home/user/.kube/config").stdout =
      ["name: podA, cpu: 100m, mem: 100Mi", "name: podB, cpu: 50m, mem: 50Mi"] :=
  (main_prints_one_line_per_record twoPodWorld "/home/user/.kube/config"
    (some ⟨"/home/user/.kube/config"⟩) none none metricsCluster.Client twoPodClient
    { Items := [convertPod podA, convertPod podB] } rfl rfl rfl rfl).1.trans (by decide)

end Metrics
